import Mathlib

/-
Shallow embedding of the poll-average dashboard (app.py).

Real-valued pandas arithmetic is modelled over ℚ; calendar dates are
modelled as natural-number ordinals (e.g. 20240101); a Python exception
raised inside a computation is modelled by `Except.error`.
-/

namespace Polls

/-- One loaded poll observation: a row of the dataframe after the load
and normalisation steps of app.py (lines 46-59). -/
structure PollObservation where
  pollster : String
  date : Nat
  approve : ℚ
  disapprove : ℚ
  deriving DecidableEq

/-- One raw input row of polls.csv.  The `disapprove` field carries the
value of the Disapprove column and is meaningful only when that column
is present in the table. -/
structure RawRow where
  pollster : String
  date : Nat
  approve : ℚ
  disapprove : ℚ
  deriving DecidableEq

/-- The raw CSV table: its column names and its rows. -/
structure RawTable where
  cols : List String
  rows : List RawRow
  deriving DecidableEq

/-- app.py line 49: `required_cols = {"pollster", "date", "Approve"}`. -/
def required_cols : List String := ["pollster", "date", "Approve"]

/-- app.py line 51: the error message shown when required columns are
missing; it names every required (hence every missing) column. -/
def errMsg : String := "CSV must contain columns: " ++ String.intercalate ", " required_cols

/-- app.py lines 46-59: load the table.  If a required column is missing
the app shows `errMsg` and stops (`st.stop()`), modelled as
`Except.error`.  Otherwise each row becomes an observation, with the
Disapprove value derived as `100 - Approve` exactly when the Disapprove
column is absent (lines 58-59). -/
def loadTable (t : RawTable) : Except String (List PollObservation) :=
  if required_cols.all (fun c => decide (c ∈ t.cols)) then
    Except.ok (t.rows.map (fun r =>
      { pollster := r.pollster,
        date := r.date,
        approve := r.approve,
        disapprove := if "Disapprove" ∈ t.cols then r.disapprove else 100 - r.approve }))
  else
    Except.error errMsg

/-- The two metrics aggregated by the app. -/
inductive Metric
  | approve
  | disapprove
  deriving DecidableEq

/-- Column selected by the metric (the "Approve" / "Disapprove" column). -/
def metricOf : Metric → PollObservation → ℚ
  | Metric.approve, o => o.approve
  | Metric.disapprove, o => o.disapprove

/-- app.py line 97: `filtered_df = df[df["pollster"].isin(selected_pollsters)]`. -/
def filteredDf (df : List PollObservation) (sel : List String) : List PollObservation :=
  df.filter (fun o => decide (o.pollster ∈ sel))

/-- The distinct dates of a list of observations in ascending order:
the group keys produced by `groupby("date")` followed by
`.sort_values("date")` (app.py lines 105-110). -/
def sortedDates (l : List PollObservation) : List Nat :=
  List.insertionSort (· ≤ ·) (l.map (fun o => o.date)).dedup

/-- The observations of one date group. -/
def dateGroup (l : List PollObservation) (d : Nat) : List PollObservation :=
  l.filter (fun o => decide (o.date = d))

/-- app.py lines 105-110 / 114-119: group the filtered observations by
date and take the per-date arithmetic mean of the metric, dates in
ascending order. -/
def dailyAvg (df : List PollObservation) (sel : List String) (m : Metric) : List (Nat × ℚ) :=
  (sortedDates (filteredDf df sel)).map (fun d =>
    (d, ((dateGroup (filteredDf df sel) d).map (metricOf m)).sum /
        ((dateGroup (filteredDf df sel) d).length : ℚ)))

/-- The spec's `DailyAggregate` shape: the same aggregation presented as
`(date, mean, contributing_count)` triples, the count being the size of
the date group (the denominator of the mean). -/
def dailyAggregate (df : List PollObservation) (sel : List String) (m : Metric) :
    List (Nat × ℚ × Nat) :=
  (sortedDates (filteredDf df sel)).map (fun d =>
    (d, (((dateGroup (filteredDf df sel) d).map (metricOf m)).sum /
         ((dateGroup (filteredDf df sel) d).length : ℚ),
        (dateGroup (filteredDf df sel) d).length)))

/-- Smoothing factor of `.ewm(span=span_value, ...)`: alpha = 2/(span+1). -/
def ewmAlpha (span : Nat) : ℚ := 2 / ((span : ℚ) + 1)

/-- Recurrence tail of `.ewm(span, adjust=False).mean()`: each output is
`a * x + (1 - a) * prev`. -/
def ewmGo (a : ℚ) : ℚ → List ℚ → List ℚ
  | _, [] => []
  | prev, x :: xs => (a * x + (1 - a) * prev) :: ewmGo a (a * x + (1 - a) * prev) xs

/-- app.py lines 111 and 120: `.ewm(span=span_value, adjust=False).mean()`
over a value column; the first output equals the first input. -/
def ewm (span : Nat) : List ℚ → List ℚ
  | [] => []
  | x :: xs => x :: ewmGo (ewmAlpha span) x xs

/-- The `(date, smoothed)` pairs of a daily-average frame after the
`"smoothed"` column is added (app.py lines 111 / 120). -/
def smoothedSeries (df : List PollObservation) (sel : List String) (m : Metric) (span : Nat) :
    List (Nat × ℚ) :=
  ((dailyAvg df sel m).map Prod.fst).zip (ewm span ((dailyAvg df sel m).map Prod.snd))

/-- `Series.max()` over a list of dates: `none` models pandas NaT on an
empty series. -/
def listMaxNat : List Nat → Option Nat
  | [] => none
  | x :: xs =>
    match listMaxNat xs with
    | none => some x
    | some m => some (max x m)

/-- app.py line 123: `latest_date = daily_avg_approve["date"].max()`. -/
def seriesMaxDate (tbl : List (Nat × ℚ)) : Option Nat := listMaxNat (tbl.map Prod.fst)

/-- app.py lines 124-125: `frame.loc[frame["date"] == d, "smoothed"].values`,
the column values at the rows whose date equals `d`. -/
def valuesAt (tbl : List (Nat × ℚ)) (d : Nat) : List ℚ :=
  (tbl.filter (fun p => decide (p.1 = d))).map Prod.snd

/-- `values[0]`: taking the first element of a numpy array raises
IndexError when the array is empty. -/
def headValue (vs : List ℚ) : Except String ℚ :=
  match vs with
  | [] => Except.error "IndexError"
  | v :: _ => Except.ok v

/-- app.py lines 123-125 as a function of the two smoothed tables: the
maximum date of the approve table is looked up in the other table and
the first matching smoothed value is taken with `values[0]`. -/
def latestFrom (approveTbl lookupTbl : List (Nat × ℚ)) : Except String ℚ :=
  match seriesMaxDate approveTbl with
  | none => Except.error "IndexError"
  | some d => headValue (valuesAt lookupTbl d)

/-- app.py line 124: the headline approval value. -/
def latestApprove (df : List PollObservation) (sel : List String) (span : Nat) :
    Except String ℚ :=
  latestFrom (smoothedSeries df sel Metric.approve span) (smoothedSeries df sel Metric.approve span)

/-- app.py line 125: the headline disapproval value, looked up at the
approve table's maximum date. -/
def latestDisapprove (df : List PollObservation) (sel : List String) (span : Nat) :
    Except String ℚ :=
  latestFrom (smoothedSeries df sel Metric.approve span)
    (smoothedSeries df sel Metric.disapprove span)

/-- Load followed by the aggregation/smoothing pipeline: a load error
stops everything before any aggregation runs. -/
def runPipeline (t : RawTable) (sel : List String) (span : Nat) :
    Except String (List (Nat × ℚ) × List (Nat × ℚ)) :=
  match loadTable t with
  | Except.error e => Except.error e
  | Except.ok df =>
    Except.ok (smoothedSeries df sel Metric.approve span,
               smoothedSeries df sel Metric.disapprove span)

/-- app.py lines 9-33: the curated "538 Best pollsters" list. -/
def best_ranked_pollsters : List String :=
  [ "Ipsos", "Reuters/Ipsos", "NBC News", "FOX News", "Wall Street Journal",
    "IBD/TIPP", "Gallup", "Wash Post/Ipsos", "TIPP", "Economist/YouGov",
    "ABC/Wash Post/Ipsos", "NY Times/Siena", "SurveyUSA", "Marquette",
    "Atlas Intel", "Cygnal", "I&I/TIPP", "Emerson", "CBS News", "Quinnipiac",
    "University of Connecticut", "YouGov", "Elon University" ]

/-- The session selection state: the two bulk flags of
`st.session_state` (app.py lines 66-69) plus the stored checkbox widget
state.  A `stored` entry `(p, (v, d))` is the user-toggled value `v` of
pollster `p`'s checkbox, kept under the widget identity whose `value`
parameter (the computed default at the time of the toggle) was `d` —
the checkboxes of line 91 have no explicit key, so Streamlit identifies
their state by a hash of the widget's arguments, `value` included. -/
structure SessionState where
  select_all : Bool
  best538 : Bool
  stored : List (String × Bool × Bool)
  deriving DecidableEq

/-- app.py lines 66-69: initial state, `select_all = False`, `best538 = True`. -/
def initialSession : SessionState :=
  { select_all := false, best538 := true, stored := [] }

/-- The mutating entry points of the sidebar: the three bulk buttons and
an individual checkbox toggle. -/
inductive UIAction
  | selectAllBtn
  | deselectAllBtn
  | best538Btn
  | toggleCheckbox (p : String) (v : Bool)

/-- app.py lines 87-90: the default (`value` parameter) of a pollster's
checkbox under the given session flags. -/
def defaultFor (curated : List String) (sa b538 : Bool) (p : String) : Bool :=
  if b538 then curated.contains p else sa

/-- The default of a pollster's checkbox in the given state. -/
def stateDefault (curated : List String) (s : SessionState) (p : String) : Bool :=
  defaultFor curated s.select_all s.best538 p

/-- Widget-state cleanup at a rerun: Streamlit keeps the stored state
only of widgets whose identity is rendered in the current run, so an
entry survives exactly when its recorded default equals the pollster's
recomputed default under the new flags; when the default (hence the
widget identity) changes, the stored toggle is discarded and the
checkbox resets to the new default. -/
def pruneStored (curated : List String) (sa b538 : Bool)
    (stored : List (String × Bool × Bool)) : List (String × Bool × Bool) :=
  stored.filter (fun e => defaultFor curated sa b538 e.1 == e.2.2)

/-- app.py lines 72-91: a button press sets the session flags and
triggers a rerun that rebuilds every checkbox with its recomputed
default; stored checkbox state survives that rerun exactly when the
pollster's default — and with it the keyless widget's identity — is
unchanged (`pruneStored`).  An individual toggle stores the user's
value under the current widget identity; it triggers a rerun too, but
one in which no default changes, so no state is discarded. -/
def stepUI (curated : List String) : SessionState → UIAction → SessionState
  | s, UIAction.selectAllBtn =>
    { select_all := true, best538 := false,
      stored := pruneStored curated true false s.stored }
  | s, UIAction.deselectAllBtn =>
    { select_all := false, best538 := false,
      stored := pruneStored curated false false s.stored }
  | s, UIAction.best538Btn =>
    { select_all := false, best538 := true,
      stored := pruneStored curated false true s.stored }
  | s, UIAction.toggleCheckbox p v =>
    { s with stored := (p, v, stateDefault curated s p) :: s.stored }

/-- app.py line 91: the current value of a pollster's checkbox — the
stored user state when its recorded widget identity matches the
currently rendered one, the recomputed default otherwise. -/
def checkboxValue (curated : List String) (s : SessionState) (p : String) : Bool :=
  match s.stored.lookup p with
  | some (v, d) => if d == stateDefault curated s p then v else stateDefault curated s p
  | none => stateDefault curated s p

/-- app.py line 94: the pollsters whose checkbox is currently checked. -/
def selectedPollsters (curated : List String) (pollsters : List String) (s : SessionState) :
    List String :=
  pollsters.filter (fun p => checkboxValue curated s p)

/-- Whether `pat` is a prefix of `s`, on character lists. -/
def startsWithChars : List Char → List Char → Bool
  | [], _ => true
  | _ :: _, [] => false
  | a :: as, b :: bs => a == b && startsWithChars as bs

/-- Whether `pat` occurs contiguously inside `s`, on character lists. -/
def hasSub (pat : List Char) : List Char → Bool
  | [] => startsWithChars pat []
  | b :: bs => startsWithChars pat (b :: bs) || hasSub pat bs

/-- The concrete scenario dataset of the spec:
`[(A, 2024-01-01, 40), (B, 2024-01-01, 44), (A, 2024-01-02, 30)]`. -/
def exDf : List PollObservation :=
  [ { pollster := "A", date := 20240101, approve := 40, disapprove := 60 },
    { pollster := "B", date := 20240101, approve := 44, disapprove := 56 },
    { pollster := "A", date := 20240102, approve := 30, disapprove := 70 } ]

/-- The smoothing tail preserves length. -/
lemma ewmGo_length (a : ℚ) (p : ℚ) (xs : List ℚ) : (ewmGo a p xs).length = xs.length := by
  induction xs generalizing p with
  | nil => rfl
  | cons x xs ih => simp [ewmGo, ih]

/-- Smoothing preserves length. -/
lemma ewm_length (span : Nat) (xs : List ℚ) : (ewm span xs).length = xs.length := by
  cases xs with
  | nil => rfl
  | cons x xs => simp [ewm, ewmGo_length]

/-- The first smoothed value is the first raw value. -/
lemma ewm_head (span : Nat) (xs : List ℚ) : (ewm span xs)[0]? = xs[0]? := by
  cases xs with
  | nil => rfl
  | cons x xs => simp [ewm]

/-- Recurrence of the smoothing tail: consecutive outputs are related by
`next = a * raw + (1 - a) * prev`. -/
lemma ewmGo_get_succ (a : ℚ) :
    ∀ (i : Nat) (p : ℚ) (xs : List ℚ) (s x' : ℚ),
      (ewmGo a p xs)[i]? = some s → xs[i + 1]? = some x' →
      (ewmGo a p xs)[i + 1]? = some (a * x' + (1 - a) * s) := by
  intro i
  induction i with
  | zero =>
    intro p xs s x' hs hx
    cases xs with
    | nil => simp [ewmGo] at hs
    | cons x₀ rest =>
      cases rest with
      | nil => simp at hx
      | cons x₁ r =>
        simp [ewmGo] at hs hx ⊢
        rw [← hs, ← hx]
  | succ i ih =>
    intro p xs s x' hs hx
    cases xs with
    | nil => simp [ewmGo] at hs
    | cons x₀ rest =>
      simp [ewmGo] at hs hx ⊢
      exact ih _ rest s x' hs hx

/-- Recurrence of `ewm`: whenever position `i` holds `s` and the raw
input at `i+1` is `x'`, position `i+1` holds
`alpha * x' + (1 - alpha) * s`. -/
lemma ewm_rec (span : Nat) (xs : List ℚ) (i : Nat) (s x' : ℚ)
    (hs : (ewm span xs)[i]? = some s) (hx : xs[i + 1]? = some x') :
    (ewm span xs)[i + 1]? = some (ewmAlpha span * x' + (1 - ewmAlpha span) * s) := by
  cases xs with
  | nil => simp [ewm] at hs
  | cons x₀ rest =>
    cases i with
    | zero =>
      simp [ewm] at hs hx ⊢
      cases rest with
      | nil => simp at hx
      | cons x₁ r =>
        simp [ewmGo] at hx ⊢
        rw [← hs, ← hx]
    | succ i =>
      simp [ewm] at hs hx ⊢
      exact ewmGo_get_succ _ i x₀ rest s x' hs hx

/-- A list that is pairwise `≤` and has no duplicates is pairwise `<`. -/
lemma pairwise_lt_of_le_nodup :
    ∀ {l : List Nat}, l.Pairwise (· ≤ ·) → l.Nodup → l.Pairwise (· < ·) := by
  intro l
  induction l with
  | nil => intro _ _; exact List.Pairwise.nil
  | cons a t ih =>
    intro hle hnd
    rcases List.pairwise_cons.mp hle with ⟨ha, ht⟩
    rcases List.pairwise_cons.mp hnd with ⟨hna, hnt⟩
    exact List.pairwise_cons.mpr
      ⟨fun b hb => lt_of_le_of_ne (ha b hb) (hna b hb), ih ht hnt⟩

/-- The sorted distinct dates are strictly ascending. -/
lemma sortedDates_pairwise (l : List PollObservation) :
    (sortedDates l).Pairwise (· < ·) := by
  apply pairwise_lt_of_le_nodup
  · exact List.sorted_insertionSort (· ≤ ·) _
  · exact ((List.perm_insertionSort (· ≤ ·) _).nodup_iff).mpr (List.nodup_dedup _)

/-- A date occurs among the sorted distinct dates exactly when some
observation carries it. -/
lemma mem_sortedDates (l : List PollObservation) (d : Nat) :
    d ∈ sortedDates l ↔ ∃ o ∈ l, o.date = d := by
  rw [sortedDates, (List.perm_insertionSort (· ≤ ·) _).mem_iff, List.mem_dedup, List.mem_map]

/-- The date column of a daily-average frame is the sorted distinct
dates of the filtered observations. -/
lemma dailyAvg_fst (df : List PollObservation) (sel : List String) (m : Metric) :
    (dailyAvg df sel m).map Prod.fst = sortedDates (filteredDf df sel) := by
  simp [dailyAvg, List.map_map, Function.comp_def]

/-- The date column of the triple-shaped aggregate, likewise. -/
lemma dailyAggregate_fst (df : List PollObservation) (sel : List String) (m : Metric) :
    (dailyAggregate df sel m).map Prod.fst = sortedDates (filteredDf df sel) := by
  simp [dailyAggregate, List.map_map, Function.comp_def]

/-- The maximum of a nonempty list is attained by a member. -/
lemma listMaxNat_mem : ∀ (l : List Nat), l ≠ [] → ∃ m, listMaxNat l = some m ∧ m ∈ l := by
  intro l
  induction l with
  | nil => intro h; exact absurd rfl h
  | cons x xs ih =>
    intro _
    cases hx : listMaxNat xs with
    | none => exact ⟨x, by simp [listMaxNat, hx], by simp⟩
    | some m =>
      have hxs : xs ≠ [] := by
        intro h
        rw [h] at hx
        simp [listMaxNat] at hx
      rcases ih hxs with ⟨n, hn, hmem⟩
      rw [hx] at hn
      have hmn : m = n := Option.some.inj hn
      rw [← hmn] at hmem
      rcases Nat.le_total x m with h | h
      · refine ⟨max x m, by simp [listMaxNat, hx], ?_⟩
        rw [Nat.max_eq_right h]
        exact List.mem_cons_of_mem x hmem
      · refine ⟨max x m, by simp [listMaxNat, hx], ?_⟩
        rw [Nat.max_eq_left h]
        exact List.mem_cons_self x xs

/-- A table containing a row at date `d` yields a nonempty value list at `d`. -/
lemma valuesAt_ne_nil {tbl : List (Nat × ℚ)} {d : Nat} (p : Nat × ℚ)
    (hp : p ∈ tbl) (hd : p.1 = d) : valuesAt tbl d ≠ [] := by
  intro h
  rw [valuesAt, List.map_eq_nil_iff] at h
  have : p ∈ tbl.filter (fun q => decide (q.1 = d)) :=
    List.mem_filter.mpr ⟨hp, by simp [hd]⟩
  rw [h] at this
  exact (List.not_mem_nil p) this

/-- The smoothed table carries exactly the dates of its daily-average frame. -/
lemma smoothedSeries_fst (df : List PollObservation) (sel : List String) (m : Metric)
    (span : Nat) :
    (smoothedSeries df sel m span).map Prod.fst = (dailyAvg df sel m).map Prod.fst := by
  apply List.map_fst_zip
  simp [ewm_length]

/-- A lookup finds nothing in a filtered association list all of whose
entries at the looked-up key fail the filter. -/
lemma lookup_filter_none {β : Type} (p : String) (q : String × β → Bool) :
    ∀ l : List (String × β), (∀ e ∈ l, e.1 = p → q e = false) →
      (l.filter q).lookup p = none := by
  intro l
  induction l with
  | nil => intro _; rfl
  | cons e es ih =>
    intro h
    rcases e with ⟨k, val⟩
    have htail : ∀ e ∈ es, e.1 = p → q e = false :=
      fun e he hep => h e (List.mem_cons_of_mem _ he) hep
    rw [List.filter_cons]
    by_cases hq : q (k, val) = true
    · rw [if_pos hq]
      have hk : (p == k) = false := by
        rw [beq_eq_false_iff_ne]
        intro hpk
        rw [h (k, val) (List.mem_cons_self _ _) hpk.symm] at hq
        exact Bool.false_ne_true hq
      simp only [List.lookup, hk]
      exact ih htail
    · rw [if_neg hq]
      exact ih htail

/-- Claim C1: the Smoother computes exponential smoothing with
alpha = 2/(span+1), anchored at the first raw value, with recurrence
smoothed[i] = alpha*raw[i] + (1-alpha)*smoothed[i-1] and no
adjustment/bias-correction term; concretely, span 2 over [42, 30]
yields [42, 34]. -/
theorem claim_C1_smoother_recurrence (span : Nat) (xs : List ℚ) :
    ewmAlpha span = 2 / ((span : ℚ) + 1) ∧
    (ewm span xs)[0]? = xs[0]? ∧
    (∀ (i : Nat) (s x' : ℚ), (ewm span xs)[i]? = some s → xs[i + 1]? = some x' →
      (ewm span xs)[i + 1]? = some (ewmAlpha span * x' + (1 - ewmAlpha span) * s)) ∧
    ewm 2 [42, 30] = [42, 34] := by
  refine ⟨rfl, ewm_head span xs, fun i s x' hs hx => ewm_rec span xs i s x' hs hx, ?_⟩
  norm_num [ewm, ewmGo, ewmAlpha]

/-- Witness for C1: the recurrence applied at span 2, input [42, 30],
index 1. -/
theorem claim_C1_witness :
    (ewm 2 [42, 30])[0 + 1]? = some (ewmAlpha 2 * 30 + (1 - ewmAlpha 2) * 42) :=
  (claim_C1_smoother_recurrence 2 [42, 30]).2.2.1 0 42 30 rfl rfl

/-- Claim C2: the Aggregator keeps exactly the observations whose
pollster is selected, groups them by date, and emits one entry per
observed date in strictly ascending order with no gap-filling, each
entry carrying the date, the unweighted mean and the group size; on the
spec scenario it yields [(2024-01-01, 42, 2), (2024-01-02, 30, 1)]. -/
theorem claim_C2_aggregator (df : List PollObservation) (sel : List String) (m : Metric) :
    ((dailyAvg df sel m).map Prod.fst).Pairwise (· < ·) ∧
    (dailyAggregate df sel m).map (fun t => (t.1, t.2.1)) = dailyAvg df sel m ∧
    (∀ d : Nat, d ∈ (dailyAvg df sel m).map Prod.fst ↔ ∃ o ∈ filteredDf df sel, o.date = d) ∧
    (∀ o : PollObservation, o ∈ filteredDf df sel ↔ o ∈ df ∧ o.pollster ∈ sel) ∧
    dailyAggregate exDf ["A", "B"] Metric.approve =
      [(20240101, (42, 2)), (20240102, (30, 1))] := by
  refine ⟨?_, ?_, ?_, ?_, ?_⟩
  · rw [dailyAvg_fst]
    exact sortedDates_pairwise _
  · simp [dailyAggregate, dailyAvg, List.map_map, Function.comp_def]
  · intro d
    rw [dailyAvg_fst]
    exact mem_sortedDates _ d
  · intro o
    simp [filteredDf, List.mem_filter]
  · norm_num [dailyAggregate, sortedDates, filteredDf, dateGroup, exDf, metricOf,
      List.insertionSort, List.orderedInsert, List.dedup, List.insert]

/-- Claim C3 evaluation: with a nonempty dataset and an empty selection
the Aggregator and Smoother do produce empty results, but the headline
computation (app.py line 124) then takes values[0] of an empty array,
which raises IndexError — contradicting the claim that no exception is
raised. -/
theorem claim_C3_empty_selection_crash :
    filteredDf exDf [] = [] ∧
    dailyAvg exDf [] Metric.approve = [] ∧
    dailyAvg exDf [] Metric.disapprove = [] ∧
    smoothedSeries exDf [] Metric.approve 5 = [] ∧
    latestApprove exDf [] 5 = Except.error "IndexError" :=
  ⟨rfl, rfl, rfl, rfl, rfl⟩

/-- Claim C4 counterexample: from the initial best538 state, unchecking
"Gallup" (a curated pollster) and then pressing the "538 Best
pollsters" button leaves Gallup's default — hence its keyless widget
identity — unchanged, so the stored toggle survives the bulk action:
the inclusion of "Gallup" is false although "Gallup" is in the curated
list, refuting the full-overwrite claim. -/
theorem claim_C4_counterexample :
    checkboxValue best_ranked_pollsters
        (stepUI best_ranked_pollsters
          (stepUI best_ranked_pollsters initialSession
            (UIAction.toggleCheckbox "Gallup" false))
          UIAction.best538Btn) "Gallup" = false ∧
    best_ranked_pollsters.contains "Gallup" = true := by
  constructor
  · decide
  · decide

/-- Claim C4 amended: a bulk action overwrites a pollster's inclusion
only where it changes that pollster's checkbox default.  In a state
whose stored widget entries match their currently rendered identities,
after toggle(p, v) followed by the curated-list bulk action: when the
new default (p in the curated list) differs from p's default at the
time of the toggle the toggle is discarded and the inclusion of p
equals membership in the curated list, but when the default is
unchanged the prior toggle survives and the inclusion of p is v. -/
theorem claim_C4_bulk_overwrite (curated : List String) (s : SessionState) (p : String)
    (v : Bool) (hwf : ∀ e ∈ s.stored, e.2.2 = stateDefault curated s e.1) :
    (defaultFor curated false true p = stateDefault curated s p →
      checkboxValue curated
        (stepUI curated (stepUI curated s (UIAction.toggleCheckbox p v))
          UIAction.best538Btn) p = v) ∧
    (defaultFor curated false true p ≠ stateDefault curated s p →
      checkboxValue curated
        (stepUI curated (stepUI curated s (UIAction.toggleCheckbox p v))
          UIAction.best538Btn) p = curated.contains p) := by
  constructor
  · intro hcase
    have hq : (defaultFor curated false true p == stateDefault curated s p) = true := by
      simp [hcase]
    simp only [stepUI, pruneStored, checkboxValue, List.filter_cons]
    rw [if_pos hq]
    simp only [List.lookup, beq_self_eq_true]
    have hd : stateDefault curated
        { select_all := false, best538 := true,
          stored := (p, v, stateDefault curated s p) ::
            List.filter (fun e => defaultFor curated false true e.1 == e.2.2) s.stored }
        p = stateDefault curated s p := hcase
    rw [hd, if_pos (beq_self_eq_true _)]
  · intro hcase
    have hq : (defaultFor curated false true p == stateDefault curated s p) = false := by
      rw [beq_eq_false_iff_ne]
      exact hcase
    simp only [stepUI, pruneStored, checkboxValue, List.filter_cons]
    rw [if_neg (by simp [hq])]
    have hnone : (List.filter (fun e => defaultFor curated false true e.1 == e.2.2)
        s.stored).lookup p = none := by
      apply lookup_filter_none
      intro e he hep
      have hrec := hwf e he
      rw [hep] at hrec
      rw [hrec, hep]
      exact hq
    rw [hnone]
    rfl

/-- Witness for C4: the unchanged-default branch at the concrete Gallup
scenario, where the prior toggle survives the 538 bulk button. -/
theorem claim_C4_witness :
    checkboxValue best_ranked_pollsters
        (stepUI best_ranked_pollsters
          (stepUI best_ranked_pollsters initialSession
            (UIAction.toggleCheckbox "Gallup" false))
          UIAction.best538Btn) "Gallup" = false :=
  (claim_C4_bulk_overwrite best_ranked_pollsters initialSession "Gallup" false
      (by intro e he; exact absurd he (List.not_mem_nil e))).1 (by decide)

/-- Claim C5: for every non-empty daily aggregate and valid span, the
smoothed series has the aggregate's length and carries the same dates
element-for-element. -/
theorem claim_C5_length_invariant (df : List PollObservation) (sel : List String)
    (m : Metric) (span : Nat) (_h2 : 2 ≤ span) (_h20 : span ≤ 20)
    (_hne : dailyAvg df sel m ≠ []) :
    (smoothedSeries df sel m span).length = (dailyAvg df sel m).length ∧
    (smoothedSeries df sel m span).map Prod.fst = (dailyAvg df sel m).map Prod.fst := by
  constructor
  · simp [smoothedSeries, List.length_zip, ewm_length]
  · exact smoothedSeries_fst df sel m span

/-- Witness for C5 on the spec scenario dataset with span 2. -/
theorem claim_C5_witness :
    (smoothedSeries exDf ["A", "B"] Metric.approve 2).length =
      (dailyAvg exDf ["A", "B"] Metric.approve).length ∧
    (smoothedSeries exDf ["A", "B"] Metric.approve 2).map Prod.fst =
      (dailyAvg exDf ["A", "B"] Metric.approve).map Prod.fst :=
  claim_C5_length_invariant exDf ["A", "B"] Metric.approve 2 (by norm_num) (by norm_num)
    (by
      norm_num [dailyAvg, sortedDates, filteredDf, dateGroup, exDf, metricOf,
        List.insertionSort, List.orderedInsert, List.dedup, List.insert]
      exact List.cons_ne_nil _ _)

/-- Claim C6: the first smoothed value equals the first raw value for
any non-empty input; a single-point input yields exactly that point and
an empty input yields an empty output. -/
theorem claim_C6_anchor (span : Nat) (xs : List ℚ) (x : ℚ) :
    (xs ≠ [] → (ewm span xs)[0]? = xs[0]?) ∧
    ewm span ([] : List ℚ) = [] ∧
    ewm span [x] = [x] := by
  refine ⟨fun _ => ewm_head span xs, rfl, ?_⟩
  simp [ewm, ewmGo]

/-- Witness for C6 at span 5. -/
theorem claim_C6_witness :
    (ewm 5 [7, 9])[0]? = some 7 ∧ ewm 5 ([] : List ℚ) = [] ∧ ewm 5 [3] = [3] := by
  have h := claim_C6_anchor 5 [7, 9] 3
  exact ⟨h.1 (by simp), h.2.1, h.2.2⟩

/-- Claim C7 counterexample: with smoothed tables [(1, 40)] (approve)
and [(0, 60)] (disapprove), the approve maximum date 1 is absent from
the disapprove table and the headline computation yields the IndexError
of values[0] on an empty array — an unhandled runtime failure, not an
omitted headline. -/
theorem claim_C7_counterexample :
    seriesMaxDate [(1, (40 : ℚ))] = some 1 ∧
    valuesAt [(0, (60 : ℚ))] 1 = [] ∧
    latestFrom [(1, (40 : ℚ))] [(0, (60 : ℚ))] = Except.error "IndexError" :=
  ⟨rfl, rfl, rfl⟩

/-- Claim C7 amended: the composer looks up the approve series' maximum
date in the disapprove table; when that date is present the first
matching smoothed value is returned, and when it is absent the
values[0] access raises IndexError rather than omitting the headline. -/
theorem claim_C7_lookup (a b : List (Nat × ℚ)) (m : Nat)
    (hmax : seriesMaxDate a = some m) :
    (valuesAt b m = [] → latestFrom a b = Except.error "IndexError") ∧
    (∀ (v : ℚ) (vs : List ℚ), valuesAt b m = v :: vs → latestFrom a b = Except.ok v) := by
  constructor
  · intro hv
    simp [latestFrom, hmax, hv, headValue]
  · intro v vs hv
    simp [latestFrom, hmax, hv, headValue]

/-- Witness for C7 at the mismatched pair of tables. -/
theorem claim_C7_witness :
    latestFrom [(1, (40 : ℚ))] [(0, (60 : ℚ))] = Except.error "IndexError" :=
  (claim_C7_lookup [(1, (40 : ℚ))] [(0, (60 : ℚ))] 1 rfl).1 rfl

/-- Claim C8: when the Disapprove column is absent every loaded
observation satisfies disapprove = 100 - approve exactly, and when it is
present the loaded disapprove values are the raw column values, with no
derivation. -/
theorem claim_C8_disapprove_derivation (t : RawTable) (obs : List PollObservation)
    (h : loadTable t = Except.ok obs) :
    ("Disapprove" ∉ t.cols → ∀ o ∈ obs, o.disapprove = 100 - o.approve) ∧
    ("Disapprove" ∈ t.cols →
      obs.map (fun o => o.disapprove) = t.rows.map (fun r => r.disapprove)) := by
  rw [loadTable] at h
  split at h
  · cases h
    constructor
    · intro hdis o ho
      rcases List.mem_map.mp ho with ⟨r, hr, rfl⟩
      simp [hdis]
    · intro hdis
      simp [List.map_map, Function.comp_def, hdis]
  · exact absurd h (by simp)

/-- Witness for C8: a one-row table without a Disapprove column loads
with disapprove = 100 - 40. -/
theorem claim_C8_witness :
    PollObservation.disapprove
        { pollster := "A", date := 1, approve := 40, disapprove := 100 - 40 } =
      100 - PollObservation.approve
        { pollster := "A", date := 1, approve := 40, disapprove := 100 - 40 } :=
  (claim_C8_disapprove_derivation
      { cols := ["pollster", "date", "Approve"],
        rows := [{ pollster := "A", date := 1, approve := 40, disapprove := 0 }] }
      [{ pollster := "A", date := 1, approve := 40, disapprove := 100 - 40 }] rfl).1
    (by decide) _ (by simp)

/-- Claim C9: when a required column is missing, loading fails with the
message that names every required (hence every missing) column, and the
pipeline halts before any aggregation. -/
theorem claim_C9_required_columns (t : RawTable) (sel : List String) (span : Nat)
    (h : ∃ c ∈ required_cols, c ∉ t.cols) :
    loadTable t = Except.error errMsg ∧
    runPipeline t sel span = Except.error errMsg ∧
    ∀ c ∈ required_cols, hasSub c.toList errMsg.toList = true := by
  have hcond : ¬ (required_cols.all (fun c => decide (c ∈ t.cols)) = true) := by
    rcases h with ⟨c, hc, hnc⟩
    intro hall
    rw [List.all_eq_true] at hall
    exact hnc (by simpa using hall c hc)
  have hload : loadTable t = Except.error errMsg := by
    rw [loadTable, if_neg hcond]
  refine ⟨hload, ?_, ?_⟩
  · simp [runPipeline, hload]
  · decide

/-- Witness for C9: a table with only the pollster and date columns. -/
theorem claim_C9_witness :
    loadTable { cols := ["pollster", "date"], rows := [] } = Except.error errMsg ∧
    runPipeline { cols := ["pollster", "date"], rows := [] } [] 5 = Except.error errMsg ∧
    ∀ c ∈ required_cols, hasSub c.toList errMsg.toList = true :=
  claim_C9_required_columns { cols := ["pollster", "date"], rows := [] } [] 5
    ⟨"Approve", by decide, by decide⟩

/-- Claim C10: the approve and disapprove daily aggregates always carry
identical date sequences, and whenever the approve aggregate is
nonempty the disapproval headline lookup at the approve maximum date
succeeds. -/
theorem claim_C10_aligned_dates (df : List PollObservation) (sel : List String) (span : Nat) :
    (dailyAvg df sel Metric.approve).map Prod.fst =
      (dailyAvg df sel Metric.disapprove).map Prod.fst ∧
    (dailyAvg df sel Metric.approve ≠ [] →
      ∃ q, latestDisapprove df sel span = Except.ok q) := by
  have hdates : (dailyAvg df sel Metric.approve).map Prod.fst =
      (dailyAvg df sel Metric.disapprove).map Prod.fst := by
    rw [dailyAvg_fst, dailyAvg_fst]
  refine ⟨hdates, ?_⟩
  intro hne
  have hfstne : (dailyAvg df sel Metric.approve).map Prod.fst ≠ [] := by
    simpa [List.map_eq_nil_iff] using hne
  have hSA : (smoothedSeries df sel Metric.approve span).map Prod.fst =
      (dailyAvg df sel Metric.approve).map Prod.fst := smoothedSeries_fst df sel _ span
  rcases listMaxNat_mem _ hfstne with ⟨m, hmax, hmem⟩
  have hmax' : seriesMaxDate (smoothedSeries df sel Metric.approve span) = some m := by
    simp only [seriesMaxDate]
    rw [hSA, hmax]
  rw [hdates, ← smoothedSeries_fst df sel Metric.disapprove span] at hmem
  rcases List.mem_map.mp hmem with ⟨p, hp, hpm⟩
  have hvne := valuesAt_ne_nil p hp hpm
  cases hv : valuesAt (smoothedSeries df sel Metric.disapprove span) m with
  | nil => exact absurd hv hvne
  | cons v vs =>
    refine ⟨v, ?_⟩
    simp [latestDisapprove, latestFrom, hmax', hv, headValue]

/-- Witness for C10 on the spec scenario dataset with span 5. -/
theorem claim_C10_witness :
    ∃ q, latestDisapprove exDf ["A", "B"] 5 = Except.ok q :=
  (claim_C10_aligned_dates exDf ["A", "B"] 5).2
    (by
      norm_num [dailyAvg, sortedDates, filteredDf, dateGroup, exDf, metricOf,
        List.insertionSort, List.orderedInsert, List.dedup, List.insert]
      exact List.cons_ne_nil _ _)

end Polls
